import Mathlib

/-!
# server.Run and server.ShutDown (src/server/server.go)

A shallow embedding of the startup routine of the proxy and of its shutdown
entry point.

Representation choices.

* A Go `string` is a Lean `String`; lengths and slices are counted in
  characters.  Every literal of the source is ASCII, so for well-formed UTF-8
  input the byte-wise and the character-wise reading of `strings.HasPrefix`
  agree.
* A Go pointer `&T{...}` to an object that `Run` builds and never mutates is
  represented by the value it points to; two fields that hold the same pointer
  hold the same let-bound value.  A nil pointer is `none`.
* A Go `error` is `Option Err` (`none` is the nil error).
* Package-level variables (`config.G`, `s5`) are explicit state (`Globals`).
* Types that are declared outside `server.go` and are only copied through by
  `Run` are parameters (`Decls`).
-/

namespace server

/-- Types declared outside `server.go` that `Run` only moves around. -/
structure Decls where
  /-- type of `config.G.Hosts` -/
  Hosts : Type
  /-- type of `config.G.TLSPaddingSize` -/
  Padding : Type
  /-- type of the three UDP timeouts of `config.G` -/
  Duration : Type
  /-- type of the three chunking fields of `config.G` -/
  Chunk : Type
  /-- dynamic type behind a non-nil `error` -/
  Err : Type
  /-- `context.Context` -/
  Ctx : Type
  /-- `io.Writer` -/
  Writer : Type
  /-- `*socks5.Request` -/
  Request : Type
  /-- `*transport.EstablishedTunnel` -/
  Tunnel : Type

/-- The fields of `config.G` that `Run` reads or writes. -/
structure Config (τ : Decls) where
  UserSession : String
  DnsCacheTTL : Int
  Hosts : τ.Hosts
  EnableLowLevelSockets : Bool
  TLSPaddingEnabled : Bool
  TLSPaddingSize : τ.Padding
  BindAddress : String
  UDPBindAddress : String
  UDPReadTimeout : τ.Duration
  UDPWriteTimeout : τ.Duration
  UDPLinkIdleTimeout : τ.Duration
  WorkerAddress : String
  WorkerIPPortAddress : String
  WorkerEnabled : Bool
  WorkerDNSOnly : Bool
  RemoteDNSAddr : String
  EnableDNSFragmentation : Bool
  SniChunksLength : τ.Chunk
  ChunksLengthAfterSni : τ.Chunk
  DelayBetweenChunks : τ.Chunk

/-! ## Library functions used by `Run` -/

/-- Go `strings.HasPrefix(s, prefix)`:
`len(s) >= len(prefix) && s[0:len(prefix)] == prefix`. -/
def HasPrefix (s pfx : String) : Bool :=
  decide (s.length ≥ pfx.length) && (s.data.take pfx.length == pfx.data)

/-- Decimal digits of a natural number, most significant first. -/
def decimal (n : Nat) : List Char := Nat.toDigits 10 n

/-- Go `fmt.Sprintf("%08d", n)` for an `int` argument: the decimal digits of
`|n|`, left-padded with zeros to the precision (the width 8, one less when a
sign is printed), preceded by `-` for a negative number. -/
def Sprintf08d (n : Int) : String :=
  let digits := decimal n.natAbs
  let prec := if n < 0 then 7 else 8
  let sign := if n < 0 then ['-'] else []
  String.mk (sign ++ List.replicate (prec - digits.length) '0' ++ digits)

/-- Go `fmt.Sprintf("socks5://%s", a)`. -/
def SprintfSocks5 (a : String) : String := "socks5://" ++ a

/-- Wrap-around of a Go `int64` (`time.Duration`) value. -/
def wrap64 (x : Int) : Int := (x + 2 ^ 63) % 2 ^ 64 - 2 ^ 63

/-- Go `time.Second` as a `time.Duration` (nanoseconds). -/
def Second : Int := 1000000000

/-- Result of `utils.NewCache(ttl)`: the cache is known here by the
expiration it was created with. -/
structure Cache where
  ttl : Int
deriving DecidableEq, Repr

/-- Go `utils.NewCache`. -/
def NewCache (ttl : Int) : Cache := ⟨ttl⟩

/-- Result of `bufferpool.NewPool(size)`. -/
structure BufferPool where
  size : Nat
deriving DecidableEq, Repr

/-- Go `bufferpool.NewPool`. -/
def NewPool (size : Nat) : BufferPool := ⟨size⟩

/-! ## Objects built by `Run` -/

/-- Go `resolve.LocalResolver` (composite literal of `Run`). -/
structure LocalResolver (τ : Decls) where
  Hosts : τ.Hosts

/-- Go `dialer.Dialer` (composite literal of `Run`). -/
structure Dialer (τ : Decls) where
  EnableLowLevelSockets : Bool
  TLSPaddingEnabled : Bool
  TLSPaddingSize : τ.Padding
  ProxyAddress : String

/-- Go `transport.WSTunnel` (composite literal of `Run`).  The map
`EstablishedTunnels` is an association list. -/
structure WSTunnel (τ : Decls) where
  BindAddress : String
  Dialer : Dialer τ
  ReadTimeout : τ.Duration
  WriteTimeout : τ.Duration
  LinkIdleTimeout : τ.Duration
  EstablishedTunnels : List (String × τ.Tunnel)
  ShortClientID : String

/-- Go `transport.Transport` (composite literal of `Run`). -/
structure Transport (τ : Decls) where
  WorkerAddress : String
  BindAddress : String
  Dialer : Dialer τ
  BufferPool : BufferPool
  UDPBind : String
  Tunnel : WSTunnel τ

/-- Go `*doh.Client` as returned by `doh.NewClient(opts...)`: the client is
known here by the three options `Run` passes. -/
structure DoHClient (τ : Decls) where
  WithDNSFragmentation : Bool
  WithDialer : Dialer τ
  WithLocalResolver : LocalResolver τ

/-- Go `doh.NewClient` applied to the three options of `Run`. -/
def NewClient {τ : Decls} (frag : Bool) (d : Dialer τ) (r : LocalResolver τ) :
    DoHClient τ :=
  { WithDNSFragmentation := frag, WithDialer := d, WithLocalResolver := r }

/-- Go `server.FragmentConfig` (composite literal of `Run`). -/
structure FragmentConfig (τ : Decls) where
  BSL : τ.Chunk
  ASL : τ.Chunk
  Delay : τ.Chunk

/-- Go `server.WorkerConfig` (composite literal of `Run`). -/
structure WorkerConfig where
  WorkerAddress : String
  WorkerIPPortAddress : String
  WorkerEnabled : Bool
  WorkerDNSOnly : Bool
deriving DecidableEq, Repr

/-- Go `server.Server` (composite literal of `Run`). -/
structure Server (τ : Decls) where
  RemoteDNSAddr : String
  Cache : Cache
  ResolveSystem : String
  DoHClient : Option (DoHClient τ)
  ChunkConfig : FragmentConfig τ
  WorkerConfig : WorkerConfig
  BindAddress : String
  EnableLowLevelSockets : Bool
  Dialer : Dialer τ
  LocalResolver : LocalResolver τ
  Transport : Transport τ

/-! ## The SOCKS server and its handlers -/

/-- Signature of a handler registered with the SOCKS server,
`func(ctx context.Context, w io.Writer, req *socks5.Request) error`.
A Go function can read package-level variables when it is called: the first
argument is the value of `config.G` at the time of the request. -/
abbrev Handler (τ : Decls) :=
  Config τ → τ.Ctx → τ.Writer → τ.Request → Option τ.Err

/-- The methods of `*Server` that `Run` refers to; they are declared outside
`server.go` and are parameters.  Each takes its receiver first, then the value
of `config.G` at the time of the call, then its Go arguments. -/
structure Methods (τ : Decls) where
  HandleTCPTunnel :
    Server τ → Config τ → τ.Ctx → τ.Writer → τ.Request → Bool → Option τ.Err
  HandleTCPFragment :
    Server τ → Config τ → τ.Ctx → τ.Writer → τ.Request → Bool → Option τ.Err
  HandleUDPTunnel :
    Server τ → Config τ → τ.Ctx → τ.Writer → τ.Request → Option τ.Err

/-- Run-time state of a `socks5.Server`. -/
structure ServeState (τ : Decls) where
  /-- network and address of the listener held; `none` when there is none -/
  listener : Option (String × String)
  /-- whether new connections are accepted -/
  accepting : Bool
  /-- tunnels of the connections accepted earlier and still being served -/
  inflight : List τ.Tunnel

/-- Go `socks5.Server`: the three handler slots that `Run` can fill, and the
run-time state. -/
structure SocksServer (τ : Decls) where
  userConnectHandle : Option (Handler τ)
  userSocks4ConnectHandle : Option (Handler τ)
  userAssociateHandle : Option (Handler τ)
  state : ServeState τ

/-- Go `socks5.Option`, restricted to the three options `Run` uses. -/
inductive SocksOption (τ : Decls) where
  | WithConnectHandle (h : Handler τ)
  | WithSocks4ConnectHandle (h : Handler τ)
  | WithAssociateHandle (h : Handler τ)

/-- Effect of one option on the server under construction. -/
def SocksOption.apply {τ : Decls} : SocksOption τ → SocksServer τ → SocksServer τ
  | .WithConnectHandle h, s => { s with userConnectHandle := some h }
  | .WithSocks4ConnectHandle h, s => { s with userSocks4ConnectHandle := some h }
  | .WithAssociateHandle h, s => { s with userAssociateHandle := some h }

/-- Go `socks5.NewServer(opts...)`: the options are applied in order to a
server with no user handler and no listener. -/
def NewServer {τ : Decls} (opts : List (SocksOption τ)) : SocksServer τ :=
  opts.foldl (fun s o => o.apply s)
    { userConnectHandle := none, userSocks4ConnectHandle := none,
      userAssociateHandle := none,
      state := { listener := none, accepting := false, inflight := [] } }

/-- What `Run` takes from its environment. -/
structure Env (τ : Decls) where
  /-- the value returned by `rand.Intn(n)` -/
  Intn : Nat → Nat
  /-- the value returned by `utils.ShortID(n)` -/
  ShortID : Nat → String
  /-- the blocking call `s.ListenAndServe(network, addr)`: the run-time state
  of the server when the call returns, and the error it returns -/
  ListenAndServe : SocksServer τ → String → String → ServeState τ × Option τ.Err

/-- Package-level variables: `config.G` and `var s5 *socks5.Server`. -/
structure Globals (τ : Decls) where
  G : Config τ
  s5 : Option (SocksServer τ)

/-! ## `Run`, one definition for each local variable -/

section Run
variable {τ : Decls}

/-- Local `appCache`. -/
def appCache (G : Config τ) : Cache := NewCache (wrap64 (G.DnsCacheTTL * Second))

/-- Local `localResolver`. -/
def localResolver (G : Config τ) : LocalResolver τ := { Hosts := G.Hosts }

/-- Local `appDialer`. -/
def appDialer (G : Config τ) : Dialer τ :=
  { EnableLowLevelSockets := G.EnableLowLevelSockets
    TLSPaddingEnabled := G.TLSPaddingEnabled
    TLSPaddingSize := G.TLSPaddingSize
    ProxyAddress := SprintfSocks5 G.BindAddress }

/-- Local `wsTunnel`. -/
def wsTunnel (env : Env τ) (G : Config τ) : WSTunnel τ :=
  { BindAddress := G.BindAddress
    Dialer := appDialer G
    ReadTimeout := G.UDPReadTimeout
    WriteTimeout := G.UDPWriteTimeout
    LinkIdleTimeout := G.UDPLinkIdleTimeout
    EstablishedTunnels := []
    ShortClientID := env.ShortID 6 }

/-- Local `tunnelTransport`. -/
def tunnelTransport (env : Env τ) (G : Config τ) : Transport τ :=
  { WorkerAddress := G.WorkerAddress
    BindAddress := G.BindAddress
    Dialer := appDialer G
    BufferPool := NewPool (32 * 1024)
    UDPBind := G.UDPBindAddress
    Tunnel := wsTunnel env G }

/-- Locals `resolveSystem` and `dohClient`, declared with their zero values
and assigned by the `if` on the resolver address. -/
def resolver (G : Config τ) : String × Option (DoHClient τ) :=
  if HasPrefix G.RemoteDNSAddr "https://" then
    ("doh",
      some (NewClient
        ((G.WorkerEnabled && G.WorkerDNSOnly) || G.EnableDNSFragmentation)
        (appDialer G) (localResolver G)))
  else
    ("DNSCrypt", none)

/-- Local `resolveSystem`. -/
def resolveSystem (G : Config τ) : String := (resolver G).1

/-- Local `dohClient`. -/
def dohClient (G : Config τ) : Option (DoHClient τ) := (resolver G).2

/-- Local `chunkConfig`. -/
def chunkConfig (G : Config τ) : FragmentConfig τ :=
  { BSL := G.SniChunksLength
    ASL := G.ChunksLengthAfterSni
    Delay := G.DelayBetweenChunks }

/-- Local `workerConfig`. -/
def workerConfig (G : Config τ) : WorkerConfig :=
  { WorkerAddress := G.WorkerAddress
    WorkerIPPortAddress := G.WorkerIPPortAddress
    WorkerEnabled := G.WorkerEnabled
    WorkerDNSOnly := G.WorkerDNSOnly }

/-- Local `serverHandler`. -/
def serverHandler (env : Env τ) (G : Config τ) : Server τ :=
  { RemoteDNSAddr := G.RemoteDNSAddr
    Cache := appCache G
    ResolveSystem := resolveSystem G
    DoHClient := dohClient G
    ChunkConfig := chunkConfig G
    WorkerConfig := workerConfig G
    BindAddress := G.BindAddress
    EnableLowLevelSockets := G.EnableLowLevelSockets
    Dialer := appDialer G
    LocalResolver := localResolver G
    Transport := tunnelTransport env G }

/-- The server assigned to `s5` by the `if` on the worker flags. -/
def newS5 (m : Methods τ) (env : Env τ) (G : Config τ) : SocksServer τ :=
  if (workerConfig G).WorkerEnabled && !(workerConfig G).WorkerDNSOnly then
    NewServer
      [ .WithConnectHandle fun g ctx w req =>
          m.HandleTCPTunnel (serverHandler env G) g ctx w req true,
        .WithSocks4ConnectHandle fun g ctx w req =>
          m.HandleTCPTunnel (serverHandler env G) g ctx w req false,
        .WithAssociateHandle fun g ctx w req =>
          m.HandleUDPTunnel (serverHandler env G) g ctx w req ]
  else
    NewServer
      [ .WithConnectHandle fun g ctx w req =>
          m.HandleTCPFragment (serverHandler env G) g ctx w req true,
        .WithSocks4ConnectHandle fun g ctx w req =>
          m.HandleTCPFragment (serverHandler env G) g ctx w req false ]

/-- What a call of `Run` leaves behind when it returns. -/
structure RunResult (τ : Decls) where
  /-- the package-level variables -/
  globals : Globals τ
  /-- the object behind the local pointer `serverHandler` -/
  serverHandler : Server τ
  /-- the object behind the local pointer `wsTunnel` -/
  wsTunnel : WSTunnel τ
  /-- whether the goroutine waiting for an interrupt was started -/
  signalGoroutine : Bool
  /-- the line printed before listening -/
  stdout : String
  /-- the returned error -/
  err : Option τ.Err

/-- Go `Run(captureCTRLC)`. -/
def Run (m : Methods τ) (env : Env τ) (captureCTRLC : Bool) (σ : Globals τ) :
    RunResult τ :=
  let G : Config τ := { σ.G with UserSession := Sprintf08d (env.Intn 1000) }
  let s5 := newS5 m env G
  let served := env.ListenAndServe s5 "tcp" G.BindAddress
  { globals := { G := G, s5 := some { s5 with state := served.1 } }
    serverHandler := serverHandler env G
    wsTunnel := wsTunnel env G
    signalGoroutine := captureCTRLC
    stdout := "Starting socks, http server: " ++ G.BindAddress ++ "\n"
    err := match served.2 with
      | some err => some err
      | none => none }

end Run

/-! ## `ShutDown` -/

/-- Modelled from the spec: `(*socks5.Server).Shutdown`, which is not in
`server.go`.  "A single idempotent call that stops accepting new connections
and releases the listener; in-flight tunnels are not forcibly drained by this
call."  It reports no error. -/
def SocksServer.Shutdown {τ : Decls} (s : SocksServer τ) :
    SocksServer τ × Option τ.Err :=
  ({ s with state := { s.state with listener := none, accepting := false } }, none)

/-- Go `ShutDown()`: `return s5.Shutdown()`.  The result is `none` when `s5`
is nil, where the call dereferences a nil pointer. -/
def ShutDown {τ : Decls} (σ : Globals τ) : Option (Globals τ × Option τ.Err) :=
  match σ.s5 with
  | none => none
  | some s => some ({ σ with s5 := some s.Shutdown.1 }, s.Shutdown.2)

/-! ## A concrete instance -/

/-- Concrete types for the parameters. -/
abbrev sampleDecls : Decls :=
  { Hosts := List (String × String)
    Padding := Int × Int
    Duration := Int
    Chunk := Int × Int
    Err := String
    Ctx := Nat
    Writer := Nat
    Request := String
    Tunnel := Nat }

/-- A configuration without worker, resolving through DNS-over-HTTPS. -/
def sampleConfig : Config sampleDecls :=
  { UserSession := ""
    DnsCacheTTL := 30
    Hosts := [("example.test", "10.0.0.5")]
    EnableLowLevelSockets := false
    TLSPaddingEnabled := false
    TLSPaddingSize := (40, 80)
    BindAddress := "127.0.0.1:8085"
    UDPBindAddress := "0.0.0.0"
    UDPReadTimeout := 120
    UDPWriteTimeout := 121
    UDPLinkIdleTimeout := 122
    WorkerAddress := "https://worker.example/dns-query"
    WorkerIPPortAddress := "104.16.0.1:443"
    WorkerEnabled := false
    WorkerDNSOnly := false
    RemoteDNSAddr := "https://1.1.1.1/dns-query"
    EnableDNSFragmentation := false
    SniChunksLength := (1, 2)
    ChunksLengthAfterSni := (3, 4)
    DelayBetweenChunks := (5, 6) }

/-- Methods that report which of them was called, and with which flag. -/
def sampleMethods : Methods sampleDecls :=
  { HandleTCPTunnel := fun _ _ _ _ req socks5 =>
      some ((if socks5 then "tunnel5 " else "tunnel4 ") ++ req)
    HandleTCPFragment := fun _ _ _ _ req socks5 =>
      some ((if socks5 then "fragment5 " else "fragment4 ") ++ req)
    HandleUDPTunnel := fun _ _ _ _ req => some ("udp " ++ req) }

/-- An environment whose listener fails to bind. -/
def sampleEnv : Env sampleDecls :=
  { Intn := fun _ => 42
    ShortID := fun _ => "abcdef"
    ListenAndServe := fun _ _ _ =>
      ({ listener := none, accepting := false, inflight := [] },
        some "bind: address already in use") }

/-- The package-level variables before `Run`. -/
def sampleGlobals : Globals sampleDecls := { G := sampleConfig, s5 := none }

/-- The sample configuration with the worker enabled for DNS only. -/
def dnsOnlyConfig : Config sampleDecls :=
  { sampleConfig with WorkerEnabled := true, WorkerDNSOnly := true }

/-- The sample configuration with the worker enabled as a relay. -/
def relayConfig : Config sampleDecls :=
  { sampleConfig with WorkerEnabled := true }

/-- Package-level variables of a process that is serving: the listener is
held and two accepted connections are being served. -/
def servingGlobals : Globals sampleDecls :=
  { G := relayConfig
    s5 := some
      { newS5 sampleMethods sampleEnv relayConfig with
        state :=
          { listener := some ("tcp", "127.0.0.1:8085")
            accepting := true
            inflight := [7, 9] } } }

/-- Value of a decimal numeral: `none` for the empty string and for a string
with a character that is not a decimal digit. -/
def parseDecimal (s : String) : Option Nat :=
  if s.data.isEmpty then none
  else
    s.data.foldl
      (fun acc ch =>
        acc.bind fun a => if ch.isDigit then some (10 * a + (ch.toNat - 48)) else none)
      (some 0)

/-! ## Theorems -/

/-- `HasPrefix s p` holds exactly when `s` is `p` followed by something. -/
theorem HasPrefix_iff (s p : String) :
    HasPrefix s p = true ↔ ∃ rest : String, s = p ++ rest := by
  unfold HasPrefix
  simp only [Bool.and_eq_true, decide_eq_true_eq, beq_iff_eq]
  constructor
  · rintro ⟨_, h⟩
    refine ⟨⟨s.data.drop p.length⟩, ?_⟩
    apply String.ext
    rw [String.data_append, ← h]
    exact (List.take_append_drop _ _).symm
  · rintro ⟨rest, rfl⟩
    constructor
    · show p.data.length ≤ (p ++ rest).data.length
      rw [String.data_append, List.length_append]
      exact Nat.le_add_right _ _
    · show List.take p.data.length (p ++ rest).data = p.data
      rw [String.data_append, List.take_left']
      rfl

/-- A scheme that is `https://` up to the case of its letters, but not
`https://` itself, is not recognised. -/
theorem HasPrefix_other_case (p rest : String)
    (hp : p.data.map Char.toLower = "https://".data) (hne : p ≠ "https://") :
    HasPrefix (p ++ rest) "https://" = false := by
  have hl : p.data.length = 8 := by
    have := congrArg List.length hp
    simpa using this
  have hd : p.data ≠ "https://".data := fun h => hne (String.ext h)
  unfold HasPrefix
  have : (p ++ rest).data.take "https://".length = p.data := by
    rw [String.data_append]
    have h8 : "https://".length = p.data.length := by rw [hl]; rfl
    rw [h8, List.take_left']
    rfl
  rw [this]
  simp [hd]

/-- Sample renderings of `Sprintf08d`. -/
theorem Sprintf08d_samples :
    Sprintf08d 0 = "00000000" ∧ Sprintf08d 42 = "00000042" ∧
      Sprintf08d 999 = "00000999" ∧ Sprintf08d 123456789 = "123456789" ∧
      Sprintf08d (-42) = "-0000042" := by
  decide

/-- Sample evaluations of `HasPrefix`. -/
theorem HasPrefix_samples :
    HasPrefix "https://1.1.1.1/dns-query" "https://" = true ∧
      HasPrefix "" "https://" = false ∧
      HasPrefix "https:/" "https://" = false ∧
      HasPrefix "HTTPS://1.1.1.1/dns-query" "https://" = false ∧
      HasPrefix "tls://1.1.1.1" "https://" = false := by
  decide

/-- Started from the sample configuration (no worker), the registered connect
handlers call `HandleTCPFragment`; the listener error is returned. -/
theorem Run_sample_direct :
    (((Run sampleMethods sampleEnv false sampleGlobals).globals.s5.bind
          fun s => s.userConnectHandle).map fun hc => hc sampleConfig 1 2 "a:80") =
        some (some "fragment5 a:80") ∧
      (((Run sampleMethods sampleEnv false sampleGlobals).globals.s5.bind
          fun s => s.userSocks4ConnectHandle).map fun h4 => h4 sampleConfig 1 2 "a:80") =
        some (some "fragment4 a:80") ∧
      (Run sampleMethods sampleEnv false sampleGlobals).err =
        some "bind: address already in use" ∧
      (Run sampleMethods sampleEnv false sampleGlobals).globals.G.UserSession =
        "00000042" ∧
      (Run sampleMethods sampleEnv false sampleGlobals).serverHandler.ResolveSystem =
        "doh" ∧
      (Run sampleMethods sampleEnv false sampleGlobals).serverHandler.ChunkConfig.BSL =
        (1, 2) ∧
      (Run sampleMethods sampleEnv false sampleGlobals).serverHandler.ChunkConfig.ASL =
        (3, 4) ∧
      (Run sampleMethods sampleEnv false sampleGlobals).serverHandler.ChunkConfig.Delay =
        (5, 6) :=
  ⟨rfl, rfl, rfl, by decide, by decide, rfl, rfl, rfl⟩

/-- Started from the relay configuration, the registered handlers call the
tunnel methods, also when the worker is switched off in `config.G` at the
time of the request. -/
theorem Run_sample_relay :
    (((Run sampleMethods sampleEnv false { G := relayConfig, s5 := none }).globals.s5.bind
          fun s => s.userConnectHandle).map fun hc => hc sampleConfig 1 2 "a:80") =
        some (some "tunnel5 a:80") ∧
      (((Run sampleMethods sampleEnv false { G := relayConfig, s5 := none }).globals.s5.bind
          fun s => s.userSocks4ConnectHandle).map fun h4 => h4 sampleConfig 1 2 "a:80") =
        some (some "tunnel4 a:80") ∧
      (((Run sampleMethods sampleEnv false { G := relayConfig, s5 := none }).globals.s5.bind
          fun s => s.userAssociateHandle).map fun ha => ha sampleConfig 1 2 "a:53") =
        some (some "udp a:53") :=
  ⟨rfl, rfl, rfl⟩

/-- `ShutDown` before `Run` has assigned `s5` does not return. -/
theorem ShutDown_nil_faults : (ShutDown sampleGlobals).isNone = true := rfl

/-- The four properties of the session identifier, for each of the thousand
values that can be drawn. -/
theorem Sprintf08d_below_1000 :
    ∀ r < 1000,
      (Sprintf08d ((r : Nat) : Int)).length = 8 ∧
      (Sprintf08d ((r : Nat) : Int)).data.all Char.isDigit = true ∧
      parseDecimal (Sprintf08d ((r : Nat) : Int)) = some r ∧
      (Sprintf08d ((r : Nat) : Int)).data.take 5 = ['0', '0', '0', '0', '0'] := by
  set_option maxRecDepth 100000 in decide

section Handlers
variable {τ : Decls}

/-- C1: `Run` leaves in `s5` a server whose SOCKS5 and SOCKS4 connect handlers
delegate to `HandleTCPTunnel`, with `HandleUDPTunnel` as associate handler,
when `WorkerEnabled` is true and `WorkerDNSOnly` is false; in every other
configuration both connect handlers delegate to `HandleTCPFragment` and there
is no associate handler.  An associate (tunnel) handler is present exactly
in the first case.  The delegate is fixed by the configuration `Run` starts
from: it is the same for every value `g` that `config.G` has at the time of a
request. -/
theorem Run_selects_handlers_at_startup (m : Methods τ) (env : Env τ) (c : Bool)
    (σ : Globals τ) :
    ∃ s hc h4,
      (Run m env c σ).globals.s5 = some s ∧
      s.userConnectHandle = some hc ∧
      s.userSocks4ConnectHandle = some h4 ∧
      (s.userAssociateHandle.isSome = true ↔
        (σ.G.WorkerEnabled = true ∧ σ.G.WorkerDNSOnly = false)) ∧
      ((σ.G.WorkerEnabled = true ∧ σ.G.WorkerDNSOnly = false) →
        (∀ g ctx w req, hc g ctx w req =
          m.HandleTCPTunnel (Run m env c σ).serverHandler g ctx w req true) ∧
        (∀ g ctx w req, h4 g ctx w req =
          m.HandleTCPTunnel (Run m env c σ).serverHandler g ctx w req false) ∧
        ∃ ha, s.userAssociateHandle = some ha ∧
          ∀ g ctx w req, ha g ctx w req =
            m.HandleUDPTunnel (Run m env c σ).serverHandler g ctx w req) ∧
      (¬(σ.G.WorkerEnabled = true ∧ σ.G.WorkerDNSOnly = false) →
        (∀ g ctx w req, hc g ctx w req =
          m.HandleTCPFragment (Run m env c σ).serverHandler g ctx w req true) ∧
        (∀ g ctx w req, h4 g ctx w req =
          m.HandleTCPFragment (Run m env c σ).serverHandler g ctx w req false) ∧
        s.userAssociateHandle = none) := by
  cases hE : σ.G.WorkerEnabled <;> cases hD : σ.G.WorkerDNSOnly <;>
    simp [Run, newS5, workerConfig, NewServer, SocksOption.apply, hE, hD]

/-- C2, as stated, fails: started from the sample configuration (worker
disabled) `Run` leaves a server with no associate handler at all. -/
theorem Run_sample_registers_no_associate_handler :
    ¬ ∃ s hc ha,
      (Run sampleMethods sampleEnv false sampleGlobals).globals.s5 = some s ∧
      s.userConnectHandle = some hc ∧
      s.userAssociateHandle = some ha ∧
      ∀ g ctx w req, ha g ctx w req =
        sampleMethods.HandleUDPTunnel
          (Run sampleMethods sampleEnv false sampleGlobals).serverHandler g ctx w req := by
  simp [Run, newS5, workerConfig, NewServer, SocksOption.apply, sampleGlobals,
    sampleConfig]

/-- C2, amended: for every configuration `Run` registers a SOCKS5 and a SOCKS4
connect handler; an associate handler is registered exactly when
`WorkerEnabled` is true and `WorkerDNSOnly` is false, and a registered
associate handler forwards the request to `HandleUDPTunnel`. -/
theorem Run_registers_connect_and_relayed_associate (m : Methods τ) (env : Env τ)
    (c : Bool) (σ : Globals τ) :
    ∃ s hc h4,
      (Run m env c σ).globals.s5 = some s ∧
      s.userConnectHandle = some hc ∧
      s.userSocks4ConnectHandle = some h4 ∧
      s.userAssociateHandle.isSome = (σ.G.WorkerEnabled && !σ.G.WorkerDNSOnly) ∧
      ∀ ha, s.userAssociateHandle = some ha →
        ∀ g ctx w req, ha g ctx w req =
          m.HandleUDPTunnel (Run m env c σ).serverHandler g ctx w req := by
  cases hE : σ.G.WorkerEnabled <;> cases hD : σ.G.WorkerDNSOnly <;>
    simp [Run, newS5, workerConfig, NewServer, SocksOption.apply, hE, hD]

/-- C9: in both modes the SOCKS5 connect handler calls the TCP method of the
mode (`HandleTCPTunnel` when relaying, `HandleTCPFragment` otherwise) with the
flag `true`, the SOCKS4 connect handler calls the same method with the flag
`false`; both pass on the context, the writer and the request they receive
and return what the method returns. -/
theorem Run_connect_handlers_set_protocol_flag (m : Methods τ) (env : Env τ)
    (c : Bool) (σ : Globals τ) :
    ∃ s hc h4,
      (Run m env c σ).globals.s5 = some s ∧
      s.userConnectHandle = some hc ∧
      s.userSocks4ConnectHandle = some h4 ∧
      ∀ g ctx w req,
        hc g ctx w req =
          (if σ.G.WorkerEnabled && !σ.G.WorkerDNSOnly then m.HandleTCPTunnel
            else m.HandleTCPFragment)
            (Run m env c σ).serverHandler g ctx w req true ∧
        h4 g ctx w req =
          (if σ.G.WorkerEnabled && !σ.G.WorkerDNSOnly then m.HandleTCPTunnel
            else m.HandleTCPFragment)
            (Run m env c σ).serverHandler g ctx w req false := by
  cases hE : σ.G.WorkerEnabled <;> cases hD : σ.G.WorkerDNSOnly <;>
    simp [Run, newS5, workerConfig, NewServer, SocksOption.apply, hE, hD]

/-- C5: the error returned by `Run` is the error returned by
`ListenAndServe("tcp", BindAddress)` on the server `Run` built: `Run` returns
a non-nil error exactly when that call does, then the same one, and nil
when that call returns nil. -/
theorem Run_returns_listen_error (m : Methods τ) (env : Env τ) (c : Bool)
    (σ : Globals τ) :
    (Run m env c σ).err =
        (env.ListenAndServe
          (newS5 m env { σ.G with UserSession := Sprintf08d (env.Intn 1000) })
          "tcp" σ.G.BindAddress).2 ∧
      ((Run m env c σ).err ≠ none ↔
        (env.ListenAndServe
          (newS5 m env { σ.G with UserSession := Sprintf08d (env.Intn 1000) })
          "tcp" σ.G.BindAddress).2 ≠ none) := by
  have h : (Run m env c σ).err =
      (env.ListenAndServe
        (newS5 m env { σ.G with UserSession := Sprintf08d (env.Intn 1000) })
        "tcp" σ.G.BindAddress).2 := by
    simp only [Run]
    split <;> simp_all
  exact ⟨h, by rw [h]⟩

/-- C6: the `ChunkConfig` of the `Server` built by `Run` has `BSL`, `ASL` and
`Delay` equal to the configured `SniChunksLength`, `ChunksLengthAfterSni` and
`DelayBetweenChunks`; every registered handler calls its method on that one
`Server`, whatever `config.G` is at the time of the request. -/
theorem Run_chunk_config_copied (m : Methods τ) (env : Env τ) (c : Bool)
    (σ : Globals τ) :
    (Run m env c σ).serverHandler.ChunkConfig.BSL = σ.G.SniChunksLength ∧
      (Run m env c σ).serverHandler.ChunkConfig.ASL = σ.G.ChunksLengthAfterSni ∧
      (Run m env c σ).serverHandler.ChunkConfig.Delay = σ.G.DelayBetweenChunks ∧
      ∃ s hc h4,
        (Run m env c σ).globals.s5 = some s ∧
        s.userConnectHandle = some hc ∧
        s.userSocks4ConnectHandle = some h4 ∧
        (∀ g ctx w req,
          hc g ctx w req =
            (if σ.G.WorkerEnabled && !σ.G.WorkerDNSOnly then m.HandleTCPTunnel
              else m.HandleTCPFragment)
              (Run m env c σ).serverHandler g ctx w req true ∧
          h4 g ctx w req =
            (if σ.G.WorkerEnabled && !σ.G.WorkerDNSOnly then m.HandleTCPTunnel
              else m.HandleTCPFragment)
              (Run m env c σ).serverHandler g ctx w req false) ∧
        ∀ ha, s.userAssociateHandle = some ha →
          ∀ g ctx w req, ha g ctx w req =
            m.HandleUDPTunnel (Run m env c σ).serverHandler g ctx w req := by
  refine ⟨rfl, rfl, rfl, ?_⟩
  cases hE : σ.G.WorkerEnabled <;> cases hD : σ.G.WorkerDNSOnly <;>
    simp [Run, newS5, workerConfig, NewServer, SocksOption.apply, hE, hD]

/-- C8: the `WSTunnel` built by `Run` has `LinkIdleTimeout`, `ReadTimeout` and
`WriteTimeout` equal to the configured `UDPLinkIdleTimeout`, `UDPReadTimeout`
and `UDPWriteTimeout`; it is the `Tunnel` of the `Transport` of the `Server`
on which every registered handler, TCP or UDP, calls its method; and its table
of established tunnels is empty. -/
theorem Run_tunnel_registry_uses_udp_timeouts (m : Methods τ) (env : Env τ)
    (c : Bool) (σ : Globals τ) :
    (Run m env c σ).wsTunnel.LinkIdleTimeout = σ.G.UDPLinkIdleTimeout ∧
      (Run m env c σ).wsTunnel.ReadTimeout = σ.G.UDPReadTimeout ∧
      (Run m env c σ).wsTunnel.WriteTimeout = σ.G.UDPWriteTimeout ∧
      (Run m env c σ).serverHandler.Transport.Tunnel = (Run m env c σ).wsTunnel ∧
      (Run m env c σ).wsTunnel.EstablishedTunnels = [] ∧
      ((σ.G.WorkerEnabled && !σ.G.WorkerDNSOnly) = true →
        ∃ s hc h4 ha,
          (Run m env c σ).globals.s5 = some s ∧
          s.userConnectHandle = some hc ∧
          s.userSocks4ConnectHandle = some h4 ∧
          s.userAssociateHandle = some ha ∧
          ∀ g ctx w req,
            hc g ctx w req =
              m.HandleTCPTunnel (Run m env c σ).serverHandler g ctx w req true ∧
            h4 g ctx w req =
              m.HandleTCPTunnel (Run m env c σ).serverHandler g ctx w req false ∧
            ha g ctx w req =
              m.HandleUDPTunnel (Run m env c σ).serverHandler g ctx w req) := by
  refine ⟨rfl, rfl, rfl, rfl, rfl, ?_⟩
  cases hE : σ.G.WorkerEnabled <;> cases hD : σ.G.WorkerDNSOnly <;>
    simp [Run, newS5, workerConfig, NewServer, SocksOption.apply, hE, hD]

/-- C3: `Run` selects the resolver `"doh"`, with a DoH client stored in the
`Server`, exactly when `RemoteDNSAddr` is `"https://"` followed by something;
otherwise it selects `"DNSCrypt"` and the `DoHClient` of the `Server` is nil.
The empty address and an address whose scheme differs from `https://` in the
case of a letter are among the latter. -/
theorem Run_selects_resolver (m : Methods τ) (env : Env τ) (c : Bool)
    (σ : Globals τ) :
    (((Run m env c σ).serverHandler.ResolveSystem = "doh" ∧
          (Run m env c σ).serverHandler.DoHClient.isSome = true) ↔
        ∃ rest : String, σ.G.RemoteDNSAddr = "https://" ++ rest) ∧
      (((Run m env c σ).serverHandler.ResolveSystem = "DNSCrypt" ∧
          (Run m env c σ).serverHandler.DoHClient = none) ↔
        ¬ ∃ rest : String, σ.G.RemoteDNSAddr = "https://" ++ rest) ∧
      (σ.G.RemoteDNSAddr = "" →
        (Run m env c σ).serverHandler.ResolveSystem = "DNSCrypt" ∧
          (Run m env c σ).serverHandler.DoHClient = none) ∧
      (∀ p rest : String, p.data.map Char.toLower = "https://".data →
        p ≠ "https://" → σ.G.RemoteDNSAddr = p ++ rest →
        (Run m env c σ).serverHandler.ResolveSystem = "DNSCrypt" ∧
          (Run m env c σ).serverHandler.DoHClient = none) := by
  have hyes : HasPrefix σ.G.RemoteDNSAddr "https://" = true →
      (Run m env c σ).serverHandler.ResolveSystem = "doh" ∧
        (Run m env c σ).serverHandler.DoHClient.isSome = true := by
    intro h
    simp [Run, serverHandler, resolveSystem, dohClient, resolver, h]
  have hno : HasPrefix σ.G.RemoteDNSAddr "https://" = false →
      (Run m env c σ).serverHandler.ResolveSystem = "DNSCrypt" ∧
        (Run m env c σ).serverHandler.DoHClient = none := by
    intro h
    simp [Run, serverHandler, resolveSystem, dohClient, resolver, h]
  have hne : ("doh" : String) ≠ "DNSCrypt" := by decide
  refine ⟨⟨fun h => ?_, fun h => hyes ((HasPrefix_iff _ _).2 h)⟩,
    ⟨fun h => ?_, fun h => hno ?_⟩, fun h => hno ?_, fun p rest hp hq h => hno ?_⟩
  · cases hp : HasPrefix σ.G.RemoteDNSAddr "https://"
    · exact absurd ((hno hp).1.symm.trans h.1).symm hne
    · exact (HasPrefix_iff _ _).1 hp
  · intro hex
    have := hyes ((HasPrefix_iff _ _).2 hex)
    exact hne (this.1.symm.trans h.1)
  · cases hp : HasPrefix σ.G.RemoteDNSAddr "https://"
    · rfl
    · exact absurd ((HasPrefix_iff _ _).1 hp) h
  · rw [h]; decide
  · rw [h]; exact HasPrefix_other_case p rest hp hq

/-- C7: when `Run` constructs a DoH client, the client's DNS fragmentation
option is `(WorkerEnabled && WorkerDNSOnly) || EnableDNSFragmentation`: on
for a DNS-only worker even with `EnableDNSFragmentation` false, off for a
relaying worker with `EnableDNSFragmentation` false. -/
theorem Run_doh_fragmentation_option (m : Methods τ) (env : Env τ) (c : Bool)
    (σ : Globals τ) (cl : DoHClient τ)
    (h : (Run m env c σ).serverHandler.DoHClient = some cl) :
    cl.WithDNSFragmentation =
        ((σ.G.WorkerEnabled && σ.G.WorkerDNSOnly) || σ.G.EnableDNSFragmentation) ∧
      (σ.G.WorkerEnabled = true → σ.G.WorkerDNSOnly = true →
        σ.G.EnableDNSFragmentation = false → cl.WithDNSFragmentation = true) ∧
      (σ.G.WorkerEnabled = true → σ.G.WorkerDNSOnly = false →
        σ.G.EnableDNSFragmentation = false → cl.WithDNSFragmentation = false) := by
  have key : cl.WithDNSFragmentation =
      ((σ.G.WorkerEnabled && σ.G.WorkerDNSOnly) || σ.G.EnableDNSFragmentation) := by
    cases hp : HasPrefix σ.G.RemoteDNSAddr "https://"
    · simp [Run, serverHandler, dohClient, resolver, hp] at h
    · simp [Run, serverHandler, dohClient, resolver, hp, NewClient] at h
      rw [← h]
  refine ⟨key, ?_, ?_⟩
  · intro h1 h2 h3
    rw [key, h1, h2, h3]; rfl
  · intro h1 h2 h3
    rw [key, h1, h2, h3]; rfl

/-- Witness of C7: a DNS-only worker with `EnableDNSFragmentation` false and
an `https://` resolver address gets a DoH client that fragments. -/
theorem Run_doh_fragmentation_option_witness :
    (Run sampleMethods sampleEnv false { G := dnsOnlyConfig, s5 := none }).serverHandler.DoHClient =
        some (NewClient true (appDialer dnsOnlyConfig) (localResolver dnsOnlyConfig)) ∧
      (NewClient true (appDialer dnsOnlyConfig)
          (localResolver dnsOnlyConfig)).WithDNSFragmentation =
        ((dnsOnlyConfig.WorkerEnabled && dnsOnlyConfig.WorkerDNSOnly) ||
          dnsOnlyConfig.EnableDNSFragmentation) :=
  ⟨rfl,
    (Run_doh_fragmentation_option sampleMethods sampleEnv false
      { G := dnsOnlyConfig, s5 := none } _ rfl).1⟩

/-- C10: when `rand.Intn(1000)` draws `r < 1000`, the `UserSession` set by
`Run` has length 8, consists of decimal digits, reads back as `r`, and starts
with five zeros; all the identifiers that can be set this way lie in one set
of at most 1000 strings. -/
theorem Run_user_session_format (m : Methods τ) (env : Env τ) (c : Bool)
    (σ : Globals τ) (h : env.Intn 1000 < 1000) :
    (Run m env c σ).globals.G.UserSession.length = 8 ∧
      (∀ ch ∈ (Run m env c σ).globals.G.UserSession.data, ch.isDigit = true) ∧
      parseDecimal (Run m env c σ).globals.G.UserSession = some (env.Intn 1000) ∧
      (Run m env c σ).globals.G.UserSession.data.take 5 = ['0', '0', '0', '0', '0'] ∧
      ∃ ids : Finset String, ids.card ≤ 1000 ∧
        ∀ (m1 : Methods τ) (env1 : Env τ) (c1 : Bool) (σ1 : Globals τ),
          env1.Intn 1000 < 1000 →
          (Run m1 env1 c1 σ1).globals.G.UserSession ∈ ids := by
  have hu : ∀ (m1 : Methods τ) (env1 : Env τ) (c1 : Bool) (σ1 : Globals τ),
      (Run m1 env1 c1 σ1).globals.G.UserSession =
        Sprintf08d ((env1.Intn 1000 : Nat) : Int) := fun _ _ _ _ => rfl
  obtain ⟨h1, h2, h3, h4⟩ := Sprintf08d_below_1000 _ h
  rw [hu]
  refine ⟨h1, fun ch hch => List.all_eq_true.1 h2 ch hch, h3, h4,
    (Finset.range 1000).image (fun r : Nat => Sprintf08d (r : Int)), ?_, ?_⟩
  · calc ((Finset.range 1000).image (fun r : Nat => Sprintf08d (r : Int))).card
        ≤ (Finset.range 1000).card := Finset.card_image_le
      _ = 1000 := Finset.card_range 1000
  · intro m1 env1 c1 σ1 hr
    rw [hu]
    exact Finset.mem_image.2 ⟨_, Finset.mem_range.2 hr, rfl⟩

/-- Witness of C10: the draw 42 gives a session identifier of length 8. -/
theorem Run_user_session_format_witness :
    sampleEnv.Intn 1000 < 1000 ∧
      (Run sampleMethods sampleEnv false sampleGlobals).globals.G.UserSession.length = 8 :=
  ⟨by decide,
    (Run_user_session_format sampleMethods sampleEnv false sampleGlobals (by decide)).1⟩

end Handlers

section Shutdown
variable {τ : Decls}

/-- C4: when `s5` holds a server, `ShutDown` returns, and a second `ShutDown`
right after it returns the same result and leaves the same state: the
listener is released, no connection is accepted, and the tunnels in flight,
the handlers and `config.G` are those from before the first call. -/
theorem ShutDown_idempotent (σ : Globals τ) (s : SocksServer τ)
    (h : σ.s5 = some s) :
    ∃ σ1 r1 s1,
      ShutDown σ = some (σ1, r1) ∧
      ShutDown σ1 = some (σ1, r1) ∧
      σ1.s5 = some s1 ∧
      s1.state.listener = none ∧
      s1.state.accepting = false ∧
      s1.state.inflight = s.state.inflight ∧
      s1.userConnectHandle = s.userConnectHandle ∧
      s1.userSocks4ConnectHandle = s.userSocks4ConnectHandle ∧
      s1.userAssociateHandle = s.userAssociateHandle ∧
      σ1.G = σ.G := by
  refine ⟨{ σ with s5 := some s.Shutdown.1 }, s.Shutdown.2, s.Shutdown.1, ?_, ?_,
    rfl, rfl, rfl, rfl, rfl, rfl, rfl, rfl⟩
  · simp [ShutDown, h]
  · simp [ShutDown, SocksServer.Shutdown]

/-- Witness of C4: shutting down a serving process twice. -/
theorem ShutDown_idempotent_witness :
    servingGlobals.s5 =
        some
          { newS5 sampleMethods sampleEnv relayConfig with
            state :=
              { listener := some ("tcp", "127.0.0.1:8085")
                accepting := true
                inflight := [7, 9] } } ∧
      ∃ σ1 r1 s1,
        ShutDown servingGlobals = some (σ1, r1) ∧
        ShutDown σ1 = some (σ1, r1) ∧
        σ1.s5 = some s1 ∧
        s1.state.listener = none ∧
        s1.state.accepting = false ∧
        s1.state.inflight = [7, 9] :=
  ⟨rfl,
    (ShutDown_idempotent servingGlobals _ rfl).imp fun _ hσ =>
      hσ.imp fun _ hr => hr.imp fun _ hs =>
        ⟨hs.1, hs.2.1, hs.2.2.1, hs.2.2.2.1, hs.2.2.2.2.1, hs.2.2.2.2.2.1⟩⟩

end Shutdown

end server
